import Mathlib

/-!
# Verification of the fluid-cursor simulation core (`src/lib/fluidCursor.ts`)

A shallow embedding, in Lean 4, of the numeric and structural core of the
WebGL fluid simulation: the JS helper functions (`wrap`, `calcDeltaTime`,
`getResolution`, `correctDeltaX/Y`), configuration defaulting, capability
negotiation (the `getSupportedFormat` fallback chain and the fail-soft
early returns), the render-target pool (`createFBO`, `createDoubleFBO`,
`resizeFBO`, `resizeDoubleFBO` with the copy-program resample), the
grid-level shader arithmetic (curl, vorticity confinement, divergence,
Jacobi pressure iteration, gradient subtraction, semi-Lagrangian
advection) and the per-tick pass pipeline `step`.

Modelling conventions:
* machine floats are exact rationals, except where GLSL `length` forces a
  square root, in which case the field is `ℝ` and `Real.sqrt` is used;
* a texture of size `W × H` is a total function `ℕ → ℕ → K`; only the
  values at indices `i < W`, `j < H` are meaningful.  `texture2D` with
  `CLAMP_TO_EDGE` at the texel-centre coordinate `vL = ((i-1)+0.5)/W`
  reads index `max (i-1) 0`, which on `ℕ` is truncated subtraction
  `i - 1`; the `+1` direction clamps to `min (i+1) (W-1)`;
* JS `%`, `Math.round` and `Math.floor` get explicit models;
* the JS code never throws on the paths modelled here, so every model
  function is total.
-/

namespace FluidCursor

/-! ## JavaScript numeric primitives -/

/-- JS `Math.round`: round half toward positive infinity. -/
def jsRound (q : ℚ) : ℤ := ⌊q + 1 / 2⌋

/-- Truncation toward zero, the rounding JS uses for the `%` operator. -/
def jsTrunc (q : ℚ) : ℤ := if q < 0 then -⌊-q⌋ else ⌊q⌋

/-- JS remainder `a % b` (sign follows the dividend, truncated division). -/
def jsRem (a b : ℚ) : ℚ := a - b * (jsTrunc (a / b) : ℚ)

/-! ## `wrap` (fluidCursor.ts lines 667-671)

```js
function wrap(value, min, max) {
  const range = max - min;
  if (range === 0) return min;
  return ((value - min) % range) + min;
}
``` -/

def wrap (value mn mx : ℚ) : ℚ :=
  let range := mx - mn
  if range = 0 then mn else jsRem (value - mn) range + mn

/-! ## `calcDeltaTime` (fluidCursor.ts lines 377-383)

```js
const now = Date.now();
let dt = (now - lastUpdateTime) / 1000;
dt = Math.min(dt, 0.016666);
lastUpdateTime = now;
```
`Date.now()` yields integer milliseconds; the clamp constant in the
source is the literal `0.016666` (not `1/60`), modelled exactly. -/

def calcDeltaTime (now lastUpdateTime : ℤ) : ℚ :=
  min (((now : ℚ) - (lastUpdateTime : ℚ)) / 1000) (16666 / 1000000)

/-! ## `getResolution` (fluidCursor.ts lines 673-682)

```js
const aspectRatio = gl.drawingBufferWidth / gl.drawingBufferHeight;
const aspect = aspectRatio < 1 ? 1 / aspectRatio : aspectRatio;
const min = Math.round(resolution);
const max = Math.round(resolution * aspect);
if (gl.drawingBufferWidth > gl.drawingBufferHeight)
  return { width: max, height: min };
return { width: min, height: max };
``` -/

def getResolution (bufW bufH : ℕ) (resolution : ℚ) : ℤ × ℤ :=
  let aspectRatio : ℚ := (bufW : ℚ) / (bufH : ℚ)
  let aspect := if aspectRatio < 1 then 1 / aspectRatio else aspectRatio
  let mn := jsRound resolution
  let mx := jsRound (resolution * aspect)
  if bufH < bufW then (mx, mn) else (mn, mx)

/-! ## Pointer-delta aspect correction (fluidCursor.ts lines 649-659)

```js
function correctDeltaX(canvas, delta) {
  const aspectRatio = canvas.width / canvas.height;
  if (aspectRatio < 1) delta *= aspectRatio;
  return delta;
}
function correctDeltaY(canvas, delta) {
  const aspectRatio = canvas.width / canvas.height;
  if (aspectRatio > 1) delta /= aspectRatio;
  return delta;
}
``` -/

def correctDeltaX (canvasW canvasH : ℕ) (delta : ℚ) : ℚ :=
  let aspectRatio : ℚ := (canvasW : ℚ) / (canvasH : ℚ)
  if aspectRatio < 1 then delta * aspectRatio else delta

def correctDeltaY (canvasW canvasH : ℕ) (delta : ℚ) : ℚ :=
  let aspectRatio : ℚ := (canvasW : ℚ) / (canvasH : ℚ)
  if 1 < aspectRatio then delta / aspectRatio else delta

/-- Pointer state (fluidCursor.ts lines 602-628), color omitted. -/
structure Pointer where
  id : ℤ
  texcoordX : ℚ
  texcoordY : ℚ
  prevTexcoordX : ℚ
  prevTexcoordY : ℚ
  deltaX : ℚ
  deltaY : ℚ
  down : Bool
  moved : Bool

/-- `updatePointerMoveData` (fluidCursor.ts lines 528-536). -/
def updatePointerMoveData (canvasW canvasH : ℕ) (pointer : Pointer)
    (posX posY : ℚ) : Pointer :=
  let prevX := pointer.texcoordX
  let prevY := pointer.texcoordY
  let tx := posX / (canvasW : ℚ)
  let ty := 1 - posY / (canvasH : ℚ)
  let dx := correctDeltaX canvasW canvasH (tx - prevX)
  let dy := correctDeltaY canvasW canvasH (ty - prevY)
  { pointer with
    prevTexcoordX := prevX
    prevTexcoordY := prevY
    texcoordX := tx
    texcoordY := ty
    deltaX := dx
    deltaY := dy
    moved := decide (0 < |dx|) || decide (0 < |dy|) }

/-! ## Configuration defaulting (fluidCursor.ts lines 19-33)

Each numeric option is read as `config.x || default`, so JS-falsy values
(`undefined`, `NaN`, `0`) select the default.  The two boolean options are
read as `config.x !== false`. -/

/-- A numeric option value as supplied by the caller: absent, `NaN`, or a
real number (modelled as an exact rational). -/
inductive JSNum where
  | undef : JSNum
  | nan : JSNum
  | num : ℚ → JSNum

/-- JS truthiness test for a numeric value. -/
def JSNum.isFalsy : JSNum → Bool
  | .undef => true
  | .nan => true
  | .num q => decide (q = 0)

/-- `v || d`: the JS logical-or defaulting idiom on numeric options. -/
def jsOr (v : JSNum) (d : ℚ) : ℚ :=
  match v with
  | .num q => if q = 0 then d else q
  | _ => d

/-- The caller-supplied configuration object (`FluidConfig`). -/
structure FluidConfig where
  simResolution : JSNum := .undef
  dyeResolution : JSNum := .undef
  densityDissipation : JSNum := .undef
  velocityDissipation : JSNum := .undef
  pressure : JSNum := .undef
  pressureIterations : JSNum := .undef
  curl : JSNum := .undef
  splatRadius : JSNum := .undef
  splatForce : JSNum := .undef
  shading : Option Bool := none
  colorUpdateSpeed : JSNum := .undef
  transparent : Option Bool := none

/-- The resolved configuration record (`defaultConfig`). -/
structure ResolvedConfig where
  SIM_RESOLUTION : ℚ
  DYE_RESOLUTION : ℚ
  DENSITY_DISSIPATION : ℚ
  VELOCITY_DISSIPATION : ℚ
  PRESSURE : ℚ
  PRESSURE_ITERATIONS : ℚ
  CURL : ℚ
  SPLAT_RADIUS : ℚ
  SPLAT_FORCE : ℚ
  SHADING : Bool
  COLOR_UPDATE_SPEED : ℚ
  TRANSPARENT : Bool

/-- The option-resolution performed at the top of `initFluidCursor`
(fluidCursor.ts lines 20-33). -/
def resolveConfig (config : FluidConfig) : ResolvedConfig where
  SIM_RESOLUTION := jsOr config.simResolution 128
  DYE_RESOLUTION := jsOr config.dyeResolution 1440
  DENSITY_DISSIPATION := jsOr config.densityDissipation (35 / 10)
  VELOCITY_DISSIPATION := jsOr config.velocityDissipation 2
  PRESSURE := jsOr config.pressure (1 / 10)
  PRESSURE_ITERATIONS := jsOr config.pressureIterations 20
  CURL := jsOr config.curl 3
  SPLAT_RADIUS := jsOr config.splatRadius (2 / 10)
  SPLAT_FORCE := jsOr config.splatForce 6000
  SHADING := decide (config.shading ≠ some false)
  COLOR_UPDATE_SPEED := jsOr config.colorUpdateSpeed 10
  TRANSPARENT := decide (config.transparent ≠ some false)

/-! ## Capability negotiation (fluidCursor.ts lines 684-763)

`getSupportedFormat` probes a candidate internal format and, on WebGL2,
falls back along the chain `R16F → RG16F → RGBA16F → null`; on WebGL1
(`'drawBuffers' in gl` false) there is no fallback.  Whether a given
format is renderable is environment-dependent, so the model takes the
probe result as a predicate. -/

/-- The internal texture formats the source ever probes. -/
inductive GLFormatCode where
  | r16f : GLFormatCode
  | rg16f : GLFormatCode
  | rgba16f : GLFormatCode
  | rgbaUnsized : GLFormatCode
  deriving DecidableEq

/-- WebGL2 fallback chain, last link: `RGBA16F` or `null`. -/
def getSupportedFormatRGBA16F (support : GLFormatCode → Bool) : Option GLFormatCode :=
  if support .rgba16f then some .rgba16f else none

/-- WebGL2 fallback chain from `RG16F`. -/
def getSupportedFormatRG16F (support : GLFormatCode → Bool) : Option GLFormatCode :=
  if support .rg16f then some .rg16f else getSupportedFormatRGBA16F support

/-- WebGL2 fallback chain from `R16F`. -/
def getSupportedFormatR16F (support : GLFormatCode → Bool) : Option GLFormatCode :=
  if support .r16f then some .r16f else getSupportedFormatRG16F support

/-- WebGL1 probe of the unsized `RGBA` format: the `switch` has no case
for it, so an unsupported probe returns `null` with no fallback. -/
def getSupportedFormatUnsized (support : GLFormatCode → Bool) : Option GLFormatCode :=
  if support .rgbaUnsized then some .rgbaUnsized else none

/-- The `ext` capability record returned by `getWebGLContext`. -/
structure GLExt where
  formatRGBA : Option GLFormatCode
  formatRG : Option GLFormatCode
  formatR : Option GLFormatCode
  halfFloatTexType : ℕ
  supportLinearFiltering : Bool

/-- The format-negotiation part of `getWebGLContext` (lines 720-728),
given whether the context is WebGL2 and the probe outcomes. -/
def negotiateFormats (isWebGL2 : Bool) (support : GLFormatCode → Bool)
    (supportLinear : Bool) (texType : ℕ) : GLExt :=
  if isWebGL2 then
    { formatRGBA := getSupportedFormatRGBA16F support
      formatRG := getSupportedFormatRG16F support
      formatR := getSupportedFormatR16F support
      halfFloatTexType := texType
      supportLinearFiltering := supportLinear }
  else
    { formatRGBA := getSupportedFormatUnsized support
      formatRG := getSupportedFormatUnsized support
      formatR := getSupportedFormatUnsized support
      halfFloatTexType := texType
      supportLinearFiltering := supportLinear }

/-- Externally observable outcome of `initFluidCursor`: whether window
listeners were added, whether the animation loop was started, and whether
the returned teardown closure is the inert `() => {}`. -/
structure InitOutcome where
  listenersInstalled : Bool
  frameLoopStarted : Bool
  teardownIsNoop : Bool
  deriving DecidableEq

/-- The guard structure of `initFluidCursor` (fluidCursor.ts lines 39-46
and 577-592): with no usable context, or with any of the three required
formats entirely unavailable, it returns `() => {}` before compiling any
shader, installing any listener or starting the loop; otherwise it
installs the four listeners, calls `updateFrame()` and returns the real
cleanup closure.  The function is total: no exception reaches the
caller on either path. -/
def initOutcome (ctx : Option GLExt) : InitOutcome :=
  match ctx with
  | none => { listenersInstalled := false, frameLoopStarted := false, teardownIsNoop := true }
  | some ext =>
    if ext.formatRGBA.isNone || ext.formatRG.isNone || ext.formatR.isNone then
      { listenersInstalled := false, frameLoopStarted := false, teardownIsNoop := true }
    else
      { listenersInstalled := true, frameLoopStarted := true, teardownIsNoop := false }

/-! ## Texture sampling

`texture2D` with `CLAMP_TO_EDGE` and either `NEAREST` or `LINEAR`
filtering, at arbitrary normalized coordinates.  The index arithmetic
below is the standard GL sampling rule; at texel-centre coordinates both
filters return the texel value exactly, which is what the stencil-style
passes rely on. -/

section Sampling

variable {K : Type} [LinearOrderedField K] [FloorRing K]

/-- Clamp an integer texel index into `[0, n)`. -/
def clampIdx (n : ℕ) (a : ℤ) : ℕ := (max 0 (min a ((n : ℤ) - 1))).toNat

/-- `NEAREST` lookup at normalized coordinate `(u, v)` in a `W × H` texture. -/
def nearestSample (W H : ℕ) (f : ℕ → ℕ → K) (u v : K) : K :=
  f (clampIdx W ⌊u * (W : K)⌋) (clampIdx H ⌊v * (H : K)⌋)

/-- `LINEAR` lookup (bilinear interpolation, clamp-to-edge); also the
arithmetic of the GLSL `bilerp` helper in the advection shader, which is
used verbatim when hardware linear filtering is absent:

```glsl
vec2 st = uv / tsize - 0.5;
vec2 iuv = floor(st);
vec2 fuv = fract(st);
vec4 a = texture2D(sam, (iuv + vec2(0.5, 0.5)) * tsize);
vec4 b = texture2D(sam, (iuv + vec2(1.5, 0.5)) * tsize);
vec4 c = texture2D(sam, (iuv + vec2(0.5, 1.5)) * tsize);
vec4 d = texture2D(sam, (iuv + vec2(1.5, 1.5)) * tsize);
return mix(mix(a, b, fuv.x), mix(c, d, fuv.x), fuv.y);
``` -/
def bilerpSample (W H : ℕ) (f : ℕ → ℕ → K) (u v : K) : K :=
  let stx := u * (W : K) - 1 / 2
  let sty := v * (H : K) - 1 / 2
  let ix := ⌊stx⌋
  let iy := ⌊sty⌋
  let fx := stx - (ix : K)
  let fy := sty - (iy : K)
  let a := f (clampIdx W ix) (clampIdx H iy)
  let b := f (clampIdx W (ix + 1)) (clampIdx H iy)
  let c := f (clampIdx W ix) (clampIdx H (iy + 1))
  let d := f (clampIdx W (ix + 1)) (clampIdx H (iy + 1))
  let m1 := a + (b - a) * fx
  let m2 := c + (d - c) * fx
  m1 + (m2 - m1) * fy

end Sampling

/-! ## Render-target pool (fluidCursor.ts lines 921-1045)

A render target owns a texture; `createFBO` clears it (clear color is
`(0,0,0,1)`, set once in `getWebGLContext`).  JS object identity is
modelled by a fresh-allocation counter threaded through the creation
functions: each GL allocation consumes one identity. -/

/-- Texture filtering mode passed as `param`. -/
inductive FilterMode where
  | linear : FilterMode
  | nearest : FilterMode
  deriving DecidableEq

/-- A single render target (the `FBO` interface, lines 921-929). -/
structure FBO where
  ident : ℕ
  width : ℕ
  height : ℕ
  internalFormat : ℕ
  format : ℕ
  texType : ℕ
  param : FilterMode
  texelSizeX : ℚ
  texelSizeY : ℚ
  content : ℕ → ℕ → Fin 4 → ℚ

/-- The clear color in effect (`gl.clearColor(0, 0, 0, 1)`). -/
def clearColor : Fin 4 → ℚ := ![0, 0, 0, 1]

/-- `createFBO` (lines 941-978): allocates a fresh texture+framebuffer of
the given size and clears it. -/
def createFBO (alloc w h internalFormat format texType : ℕ)
    (param : FilterMode) : FBO × ℕ :=
  ({ ident := alloc
     width := w
     height := h
     internalFormat := internalFormat
     format := format
     texType := texType
     param := param
     texelSizeX := 1 / (w : ℚ)
     texelSizeY := 1 / (h : ℚ)
     content := fun _ _ => clearColor }, alloc + 1)

/-- Sampling an FBO's texture at a normalized coordinate, honoring its
filter mode. -/
def FBO.sample (t : FBO) (u v : ℚ) : Fin 4 → ℚ := fun ch =>
  match t.param with
  | .linear => bilerpSample t.width t.height (fun i j => t.content i j ch) u v
  | .nearest => nearestSample t.width t.height (fun i j => t.content i j ch) u v

/-- One full-screen draw of the copy program (`gl_FragColor =
texture2D(uTexture, vUv)`) from `src` into a `w × h` target: output texel
`(i, j)` has centre `((i+0.5)/w, (j+0.5)/h)`. -/
def copyProgramRender (src : FBO) (w h : ℕ) : ℕ → ℕ → Fin 4 → ℚ :=
  fun i j => src.sample (((i : ℚ) + 1 / 2) / (w : ℚ)) (((j : ℚ) + 1 / 2) / (h : ℚ))

/-- A double-buffered render target (the `DoubleFBO` interface,
lines 931-939). -/
structure DoubleFBO where
  width : ℕ
  height : ℕ
  texelSizeX : ℚ
  texelSizeY : ℚ
  read : FBO
  write : FBO

/-- `swap` (lines 998-1002): exchange the two designations.  No GL call is
made and no allocation-counter argument is even taken. -/
def DoubleFBO.swap (d : DoubleFBO) : DoubleFBO :=
  { d with read := d.write, write := d.read }

/-- `createDoubleFBO` (lines 980-1004). -/
def createDoubleFBO (alloc w h internalFormat format texType : ℕ)
    (param : FilterMode) : DoubleFBO × ℕ :=
  let r1 := createFBO alloc w h internalFormat format texType param
  let r2 := createFBO r1.2 w h internalFormat format texType param
  ({ width := w
     height := h
     texelSizeX := r1.1.texelSizeX
     texelSizeY := r1.1.texelSizeY
     read := r1.1
     write := r2.1 }, r2.2)

/-- `resizeFBO` (lines 1006-1023): allocate a new target and draw the old
one into it through the copy program. -/
def resizeFBO (alloc : ℕ) (target : FBO) (w h internalFormat format texType : ℕ)
    (param : FilterMode) : FBO × ℕ :=
  let r := createFBO alloc w h internalFormat format texType param
  ({ r.1 with content := copyProgramRender target w h }, r.2)

/-- `resizeDoubleFBO` (lines 1025-1045): unchanged when the size already
matches; otherwise the read target is resized through the copy program,
the write target is freshly allocated, and the recorded dimensions are
updated. -/
def resizeDoubleFBO (alloc : ℕ) (target : DoubleFBO)
    (w h internalFormat format texType : ℕ) (param : FilterMode) : DoubleFBO × ℕ :=
  if target.width = w ∧ target.height = h then (target, alloc)
  else
    let r1 := resizeFBO alloc target.read w h internalFormat format texType param
    let r2 := createFBO r1.2 w h internalFormat format texType param
    ({ width := w
       height := h
       texelSizeX := 1 / (w : ℚ)
       texelSizeY := 1 / (h : ℚ)
       read := r1.1
       write := r2.1 }, r2.2)

/-- The double-buffer invariant: read and write are two distinct target
instances of identical dimensions and format. -/
def DoubleFBO.wellFormed (d : DoubleFBO) : Prop :=
  d.read.ident ≠ d.write.ident ∧
  d.read.width = d.write.width ∧
  d.read.height = d.write.height ∧
  d.read.internalFormat = d.write.internalFormat ∧
  d.read.format = d.write.format ∧
  d.read.texType = d.write.texType ∧
  d.read.param = d.write.param

instance (d : DoubleFBO) : Decidable d.wellFormed := by
  unfold DoubleFBO.wellFormed
  infer_instance

/-! ## Grid-level shader arithmetic

The stencil-style passes render one fragment per texel of a `W × H`
target and sample their inputs only at the four neighbor texel centres
`vL, vR, vT, vB` and the centre `vUv`; with clamp-to-edge those reads are
index reads at `i-1 / min (i+1) (W-1)` (and likewise for `j`), exact for
both filter modes.  Boundary tests in the divergence shader
(`vL.x < 0.0` etc.) hold exactly for `i = 0`, `i = W-1`, `j = 0`,
`j = H-1`. -/

section Grid

variable {K : Type} [LinearOrderedField K]

/-- The divergence shader (fluidCursor.ts lines 182-207): central
difference `0.5 * (R - L + T - B)` with the missing edge neighbor
replaced by the negated own-axis centre component. -/
def divergenceField (W H : ℕ) (vx vy : ℕ → ℕ → K) : ℕ → ℕ → K := fun i j =>
  let L := if i = 0 then -(vx i j) else vx (i - 1) j
  let R := if i = W - 1 then -(vx i j) else vx (min (i + 1) (W - 1)) j
  let T := if j = H - 1 then -(vy i j) else vy i (min (j + 1) (H - 1))
  let B := if j = 0 then -(vy i j) else vy i (j - 1)
  (1 / 2) * (R - L + T - B)

/-- The curl shader (lines 209-227): `0.5 * (R - L - T + B)` on the
cross-components of velocity. -/
def curlField (W H : ℕ) (vx vy : ℕ → ℕ → K) : ℕ → ℕ → K := fun i j =>
  let L := vy (i - 1) j
  let R := vy (min (i + 1) (W - 1)) j
  let T := vx i (min (j + 1) (H - 1))
  let B := vx i (j - 1)
  (1 / 2) * (R - L - T + B)

/-- The clear shader (lines 80-90): scale the previous texture by a
uniform `value` (the pressure damping coefficient in `step`). -/
def clearField (p : ℕ → ℕ → K) (value : K) : ℕ → ℕ → K := fun i j =>
  value * p i j

/-- One Jacobi pressure iteration (the pressure shader, lines 261-281):
`(L + R + B + T - divergence) * 0.25`. -/
def jacobiIter (W H : ℕ) (d p : ℕ → ℕ → K) : ℕ → ℕ → K := fun i j =>
  let L := p (i - 1) j
  let R := p (min (i + 1) (W - 1)) j
  let T := p i (min (j + 1) (H - 1))
  let B := p i (j - 1)
  (L + R + B + T - d i j) * (1 / 4)

/-- The gradient-subtraction shader (lines 283-303):
`velocity.xy -= vec2(R - L, T - B)` of pressure. -/
def gradientSubtract (W H : ℕ) (p vx vy : ℕ → ℕ → K) :
    (ℕ → ℕ → K) × (ℕ → ℕ → K) :=
  (fun i j =>
     let L := p (i - 1) j
     let R := p (min (i + 1) (W - 1)) j
     vx i j - (R - L),
   fun i j =>
     let T := p i (min (j + 1) (H - 1))
     let B := p i (j - 1)
     vy i j - (T - B))

/-- The clamped four-neighbor sum, the linear operator driving one Jacobi
sweep (`jacobiIter W H d p = (neighborSum p - d) / 4`). -/
def neighborSum (W H : ℕ) (f : ℕ → ℕ → K) : ℕ → ℕ → K := fun i j =>
  f (i - 1) j + f (min (i + 1) (W - 1)) j + f i (j - 1) + f i (min (j + 1) (H - 1))

/-- Residual of the discrete pressure equation targeted by the Jacobi
solve: zero exactly at the solver's fixed points. -/
def pressureResidual (W H : ℕ) (d p : ℕ → ℕ → K) : ℕ → ℕ → K := fun i j =>
  neighborSum W H p i j - 4 * p i j - d i j

/-- Squared L2 norm of a field over the `W × H` grid. -/
def normSq (W H : ℕ) (f : ℕ → ℕ → K) : K :=
  ∑ i ∈ Finset.range W, ∑ j ∈ Finset.range H, f i j ^ 2

/-- Squared L2 norm of the divergence remaining after `k` Jacobi
iterations (from divergence `divergenceField W H vx vy` and initial
pressure `p0`) followed by gradient subtraction: the quantity claimed to
be monotone in `k`. -/
def projectedResidualNormSq (W H : ℕ) (vx vy p0 : ℕ → ℕ → K) (k : ℕ) : K :=
  let d := divergenceField W H vx vy
  let p := (jacobiIter W H d)^[k] p0
  let v := gradientSubtract W H p vx vy
  normSq W H (divergenceField W H v.1 v.2)

/-- The advection shader (lines 144-180) rendered to a `tW × tH` target:
backtrace `coord = vUv - dt * velocity(vUv) * texelSize` (velocity texel
size), sample the source there, and divide by `1 + dissipation * dt`.
With hardware linear filtering the two `texture2D` calls are bilinear
lookups; without it the shader's explicit `bilerp` helper performs the
identical arithmetic on the nearest-filtered texture, so both code paths
yield this function. -/
def advectField [FloorRing K] (tW tH vW vH sW sH : ℕ) (vx vy src : ℕ → ℕ → K)
    (dt dissipation : K) : ℕ → ℕ → K := fun i j =>
  let u := ((i : K) + 1 / 2) / (tW : K)
  let v := ((j : K) + 1 / 2) / (tH : K)
  let velU := bilerpSample vW vH vx u v
  let velV := bilerpSample vW vH vy u v
  let cu := u - dt * velU * (1 / (vW : K))
  let cv := v - dt * velV * (1 / (vH : K))
  bilerpSample sW sH src cu cv / (1 + dissipation * dt)

/-- Agreement of two fields on the `W × H` grid (the off-grid values of a
texture function are never read by a pass rendering that grid). -/
def FieldEqOn (W H : ℕ) (f g : ℕ → ℕ → K) : Prop :=
  ∀ i < W, ∀ j < H, f i j = g i j

end Grid

/-- The vorticity-confinement shader (lines 229-259), over `ℝ` because
GLSL `length` is a square root:

```glsl
vec2 force = 0.5 * vec2(abs(T) - abs(B), abs(R) - abs(L));
force /= length(force) + 0.0001;
force *= curl * C;
force.y *= -1.0;
vec2 velocity = texture2D(uVelocity, vUv).xy;
velocity += force * dt;
velocity = min(max(velocity, -1000.0), 1000.0);
``` -/
noncomputable def vorticityField (W H : ℕ) (vx vy curlTex : ℕ → ℕ → ℝ)
    (curlStrength dt : ℝ) : (ℕ → ℕ → ℝ) × (ℕ → ℕ → ℝ) :=
  (fun i j =>
     let L := curlTex (i - 1) j
     let R := curlTex (min (i + 1) (W - 1)) j
     let T := curlTex i (min (j + 1) (H - 1))
     let B := curlTex i (j - 1)
     let C := curlTex i j
     let fx0 := (1 / 2) * (|T| - |B|)
     let fy0 := (1 / 2) * (|R| - |L|)
     let len := Real.sqrt (fx0 ^ 2 + fy0 ^ 2)
     let fx := fx0 / (len + 1 / 10000) * (curlStrength * C)
     let velx := vx i j + fx * dt
     min (max velx (-1000)) 1000,
   fun i j =>
     let L := curlTex (i - 1) j
     let R := curlTex (min (i + 1) (W - 1)) j
     let T := curlTex i (min (j + 1) (H - 1))
     let B := curlTex i (j - 1)
     let C := curlTex i j
     let fx0 := (1 / 2) * (|T| - |B|)
     let fy0 := (1 / 2) * (|R| - |L|)
     let len := Real.sqrt (fx0 ^ 2 + fy0 ^ 2)
     let fy := fy0 / (len + 1 / 10000) * (curlStrength * C) * (-1)
     let vely := vy i j + fy * dt
     min (max vely (-1000)) 1000)

/-! ## The per-tick pass pipeline `step` (fluidCursor.ts lines 413-476)

Each full-screen draw (`blit`) and each double-buffer `swap()` is
recorded, in program order, as one event; the field contents are advanced
by the corresponding grid functions.  In the functional model a draw into
a double buffer's `write` target followed by `swap()` appears as updating
the current field. -/

/-- One GPU pass or buffer swap of `step`, in the order issued. -/
inductive StepEvent where
  | curlPass : StepEvent
  | vorticityPass : StepEvent
  | divergencePass : StepEvent
  | clearPass : StepEvent
  | pressurePass : StepEvent
  | gradientSubtractPass : StepEvent
  | advectVelocityPass : StepEvent
  | advectDyePass : StepEvent
  | swapVelocity : StepEvent
  | swapPressure : StepEvent
  | swapDye : StepEvent
  deriving DecidableEq, Repr

/-- The configuration values `step` reads. -/
structure SimConfig where
  simW : ℕ
  simH : ℕ
  dyeW : ℕ
  dyeH : ℕ
  pressureCoeff : ℝ
  pressureIterations : ℕ
  curlStrength : ℝ
  velocityDissipation : ℝ
  densityDissipation : ℝ

/-- The mutable GPU state `step` operates on, plus the event trace. -/
structure SimState where
  vx : ℕ → ℕ → ℝ
  vy : ℕ → ℕ → ℝ
  dyeR : ℕ → ℕ → ℝ
  dyeG : ℕ → ℕ → ℝ
  dyeB : ℕ → ℕ → ℝ
  pressure : ℕ → ℕ → ℝ
  divergenceTex : ℕ → ℕ → ℝ
  curlTex : ℕ → ℕ → ℝ
  trace : List StepEvent

/-- Body of the pressure-solve `for` loop (lines 444-448): one Jacobi
draw into `pressure.write`, then `pressure.swap()`. -/
noncomputable def jacobiLoopBody (cfg : SimConfig) (s : SimState) : SimState :=
  { s with
    pressure := jacobiIter cfg.simW cfg.simH s.divergenceTex s.pressure
    trace := s.trace ++ [.pressurePass, .swapPressure] }

/-- `step(dt)` (lines 413-476), pass for pass in source order. -/
noncomputable def step (cfg : SimConfig) (dt : ℝ) (s : SimState) : SimState :=
  let s1 : SimState :=
    { s with
      curlTex := curlField cfg.simW cfg.simH s.vx s.vy
      trace := s.trace ++ [.curlPass] }
  let vort := vorticityField cfg.simW cfg.simH s1.vx s1.vy s1.curlTex cfg.curlStrength dt
  let s2 : SimState :=
    { s1 with
      vx := vort.1
      vy := vort.2
      trace := s1.trace ++ [.vorticityPass, .swapVelocity] }
  let s3 : SimState :=
    { s2 with
      divergenceTex := divergenceField cfg.simW cfg.simH s2.vx s2.vy
      trace := s2.trace ++ [.divergencePass] }
  let s4 : SimState :=
    { s3 with
      pressure := clearField s3.pressure cfg.pressureCoeff
      trace := s3.trace ++ [.clearPass, .swapPressure] }
  let s5 : SimState := (jacobiLoopBody cfg)^[cfg.pressureIterations] s4
  let grad := gradientSubtract cfg.simW cfg.simH s5.pressure s5.vx s5.vy
  let s6 : SimState :=
    { s5 with
      vx := grad.1
      vy := grad.2
      trace := s5.trace ++ [.gradientSubtractPass, .swapVelocity] }
  let s7 : SimState :=
    { s6 with
      vx := advectField cfg.simW cfg.simH cfg.simW cfg.simH cfg.simW cfg.simH
        s6.vx s6.vy s6.vx dt cfg.velocityDissipation
      vy := advectField cfg.simW cfg.simH cfg.simW cfg.simH cfg.simW cfg.simH
        s6.vx s6.vy s6.vy dt cfg.velocityDissipation
      trace := s6.trace ++ [.advectVelocityPass, .swapVelocity] }
  { s7 with
    dyeR := advectField cfg.dyeW cfg.dyeH cfg.simW cfg.simH cfg.dyeW cfg.dyeH
      s7.vx s7.vy s7.dyeR dt cfg.densityDissipation
    dyeG := advectField cfg.dyeW cfg.dyeH cfg.simW cfg.simH cfg.dyeW cfg.dyeH
      s7.vx s7.vy s7.dyeG dt cfg.densityDissipation
    dyeB := advectField cfg.dyeW cfg.dyeH cfg.simW cfg.simH cfg.dyeW cfg.dyeH
      s7.vx s7.vy s7.dyeB dt cfg.densityDissipation
    trace := s7.trace ++ [.advectDyePass, .swapDye] }

/-- The pass order stated by the specification, as a function of the
configured Jacobi iteration count. -/
def specPassOrder (pressureIterations : ℕ) : List StepEvent :=
  [.curlPass, .vorticityPass, .swapVelocity, .divergencePass, .clearPass, .swapPressure]
    ++ (List.replicate pressureIterations
        [StepEvent.pressurePass, StepEvent.swapPressure]).flatten
    ++ [.gradientSubtractPass, .swapVelocity, .advectVelocityPass, .swapVelocity,
        .advectDyePass, .swapDye]

/-! ## Concrete data for the pressure-projection residual claim

A `3 × 3` velocity/initial-pressure pair on which the post-projection
divergence norm increases from the first to the second Jacobi iteration.
`dEx`, `p1Ex`, `p2Ex` are the (exact) intermediate values of the
divergence and of the first and second pressure iterates. -/

/-- Example x-velocity. -/
def vxEx : ℕ → ℕ → ℚ := fun i j =>
  (([[0, 0, -1], [1, 0, 1], [-1, -1, 1]].getD i []).getD j 0)

/-- Example y-velocity. -/
def vyEx : ℕ → ℕ → ℚ := fun i j =>
  (([[-1, -1, -1], [1, 0, -1], [-1, 0, 1]].getD i []).getD j 0)

/-- Example initial pressure. -/
def p0Ex : ℕ → ℕ → ℚ := fun i j =>
  (([[0, -1, 0], [1, 0, 1], [-1, 1, 0]].getD i []).getD j 0)

/-- Divergence of `(vxEx, vyEx)` on the grid. -/
def dEx : ℕ → ℕ → ℚ := fun i j =>
  (([[-1/2, 0, 1], [0, -3/2, 3/2], [-1/2, 3/2, -3/2]].getD i []).getD j 0)

/-- First Jacobi iterate on the grid. -/
def p1Ex : ℕ → ℕ → ℚ := fun i j =>
  (([[1/8, -1/4, -1/4], [0, 7/8, -1/8], [1/8, -3/8, 7/8]].getD i []).getD j 0)

/-- Second Jacobi iterate on the grid. -/
def p2Ex : ℕ → ℕ → ℚ := fun i j =>
  (([[1/8, 1/8, -15/32], [9/32, 3/16, -1/32], [3/32, 0, 11/16]].getD i []).getD j 0)

/-- The outcome of a fail-soft early return: no listeners, no loop, inert
teardown. -/
def inertOutcome : InitOutcome :=
  { listenersInstalled := false, frameLoopStarted := false, teardownIsNoop := true }

/-- A configuration supplying `0` for `pressure`, `colorUpdateSpeed` and
`pressureIterations` (used to witness the defaulting behavior). -/
def zeroNumericConfig : FluidConfig :=
  { pressure := (JSNum.num 0), colorUpdateSpeed := (JSNum.num 0), pressureIterations := (JSNum.num 0) }

/-! # Theorems -/

/-! ## JS remainder helper lemmas -/

theorem jsTrunc_of_nonneg {q : ℚ} (h : 0 ≤ q) : jsTrunc q = ⌊q⌋ := by
  unfold jsTrunc
  rw [if_neg (not_lt.mpr h)]

theorem jsRem_nonneg {a b : ℚ} (ha : 0 ≤ a) (hb : 0 < b) : 0 ≤ jsRem a b := by
  unfold jsRem
  rw [jsTrunc_of_nonneg (div_nonneg ha hb.le)]
  have h1 : (⌊a / b⌋ : ℚ) ≤ a / b := Int.floor_le _
  have h2 : (⌊a / b⌋ : ℚ) * b ≤ a := (le_div_iff₀ hb).mp h1
  linarith

theorem jsRem_lt {a b : ℚ} (ha : 0 ≤ a) (hb : 0 < b) : jsRem a b < b := by
  unfold jsRem
  rw [jsTrunc_of_nonneg (div_nonneg ha hb.le)]
  have h1 : a / b < ⌊a / b⌋ + 1 := Int.lt_floor_add_one _
  have h2 : a < ((⌊a / b⌋ : ℚ) + 1) * b := (div_lt_iff₀ hb).mp h1
  linarith

/-! ## C5: delta-time clamping -/

/-- C5: for consecutive tick timestamps (wall clock nondecreasing between
ticks), the computed `dt` lies in `[0, 1/60]`; it never exceeds the
elapsed seconds, and equals them whenever they do not exceed the clamp
constant `0.016666`. -/
theorem c5_calcDeltaTime_bounds (now lastUpdateTime : ℤ) (h : lastUpdateTime ≤ now) :
    0 ≤ calcDeltaTime now lastUpdateTime ∧
    calcDeltaTime now lastUpdateTime ≤ 1 / 60 ∧
    calcDeltaTime now lastUpdateTime ≤ ((now : ℚ) - (lastUpdateTime : ℚ)) / 1000 ∧
    (((now : ℚ) - (lastUpdateTime : ℚ)) / 1000 ≤ 16666 / 1000000 →
      calcDeltaTime now lastUpdateTime = ((now : ℚ) - (lastUpdateTime : ℚ)) / 1000) := by
  have helapsed : (0 : ℚ) ≤ ((now : ℚ) - (lastUpdateTime : ℚ)) / 1000 := by
    have : (lastUpdateTime : ℚ) ≤ (now : ℚ) := by exact_mod_cast h
    have h0 : (0 : ℚ) ≤ (now : ℚ) - (lastUpdateTime : ℚ) := by linarith
    positivity
  refine ⟨le_min helapsed (by norm_num), ?_, min_le_left _ _, fun hle => min_eq_left hle⟩
  exact (min_le_right _ _).trans (by norm_num)

/-- Witness for C5 at `now = 10`, `lastUpdateTime = 0` (elapsed 10 ms). -/
theorem c5_calcDeltaTime_bounds_witness :
    0 ≤ calcDeltaTime 10 0 ∧ calcDeltaTime 10 0 ≤ 1 / 60 ∧
    calcDeltaTime 10 0 ≤ ((10 : ℚ) - (0 : ℚ)) / 1000 ∧
    (((10 : ℚ) - (0 : ℚ)) / 1000 ≤ 16666 / 1000000 →
      calcDeltaTime 10 0 = ((10 : ℚ) - (0 : ℚ)) / 1000) := by
  have h := c5_calcDeltaTime_bounds 10 0 (by decide)
  exact_mod_cast h

/-! ## C6: aspect-preserving resolution selection -/

/-- C6: for positive drawing-buffer dimensions and nominal resolution
`r`, the selected grid gives the longer surface axis
`round(r * max a (1/a))` texels (with `a` the aspect ratio `w/h`) and the
shorter axis `round r` texels; on a square surface both axes get
`round r`. -/
theorem c6_getResolution_aspect (bufW bufH : ℕ) (r : ℚ)
    (hw : 0 < bufW) (hh : 0 < bufH) :
    (bufH < bufW → getResolution bufW bufH r
      = (jsRound (r * max ((bufW : ℚ) / bufH) (1 / ((bufW : ℚ) / bufH))), jsRound r)) ∧
    (bufW < bufH → getResolution bufW bufH r
      = (jsRound r, jsRound (r * max ((bufW : ℚ) / bufH) (1 / ((bufW : ℚ) / bufH))))) ∧
    (bufW = bufH → getResolution bufW bufH r = (jsRound r, jsRound r)) := by
  have hwq : (0 : ℚ) < (bufW : ℚ) := by exact_mod_cast hw
  have hhq : (0 : ℚ) < (bufH : ℚ) := by exact_mod_cast hh
  have ha : (0 : ℚ) < (bufW : ℚ) / bufH := div_pos hwq hhq
  refine ⟨fun hlt => ?_, fun hlt => ?_, fun heq => ?_⟩
  · have h1 : (1 : ℚ) < (bufW : ℚ) / bufH :=
      (one_lt_div hhq).mpr (by exact_mod_cast hlt)
    have hmax : max ((bufW : ℚ) / bufH) (1 / ((bufW : ℚ) / bufH))
        = (bufW : ℚ) / bufH := by
      refine max_eq_left ?_
      have : 1 / ((bufW : ℚ) / bufH) < 1 := by
        rw [div_lt_one ha]; exact h1
      linarith
    simp only [getResolution]
    rw [if_neg (not_lt.mpr h1.le), if_pos hlt, hmax]
  · have h1 : (bufW : ℚ) / bufH < 1 :=
      (div_lt_one hhq).mpr (by exact_mod_cast hlt)
    have hmax : max ((bufW : ℚ) / bufH) (1 / ((bufW : ℚ) / bufH))
        = 1 / ((bufW : ℚ) / bufH) := by
      refine max_eq_right ?_
      have : 1 < 1 / ((bufW : ℚ) / bufH) := by
        rw [lt_div_iff₀ ha]; linarith
      linarith
    simp only [getResolution]
    rw [if_pos h1, if_neg (by omega), hmax]
  · have h1 : (bufW : ℚ) / bufH = 1 := by
      rw [heq]; exact div_self hhq.ne'
    simp only [getResolution]
    rw [h1]
    rw [if_neg (show ¬((1 : ℚ) < 1) by norm_num),
      if_neg (show ¬bufH < bufW by omega), mul_one]

/-- Witness for C6 on a 4×2 buffer at nominal resolution 10. -/
theorem c6_getResolution_aspect_witness :
    getResolution 4 2 10
      = (jsRound (10 * max ((4 : ℚ) / 2) (1 / ((4 : ℚ) / 2))), jsRound 10) :=
  (c6_getResolution_aspect 4 2 10 (by decide) (by decide)).1 (by decide)

/-! ## C7: the wrap utility (corrected)

For `value < min` the JS `%` operator returns a negative remainder, so
the result lies below `min`: the claimed unconditional containment in
`[min, max)` fails.  It does hold whenever `min ≤ value`. -/

/-- C7 counterexample: the claim "for every value and min < max the
result lies in `[min, max)`" is false: `wrap (-1) 0 2 = -1 ∉ [0, 2)`. -/
theorem c7_wrap_counterexample :
    ¬ ∀ value mn mx : ℚ, mn < mx →
      mn ≤ wrap value mn mx ∧ wrap value mn mx < mx := by
  intro hclaim
  have h := hclaim (-1) 0 2 (by norm_num)
  have hw : wrap (-1) 0 2 = -1 := by norm_num [wrap, jsRem, jsTrunc]
  rw [hw] at h
  exact absurd h.1 (by norm_num)

/-- C7 amended: for `min ≤ value` and `min < max` the result lies in
`[min, max)`; for `max = min` the result is `min` for every value. -/
theorem c7_wrap_range :
    (∀ value mn mx : ℚ, mn ≤ value → mn < mx →
      mn ≤ wrap value mn mx ∧ wrap value mn mx < mx) ∧
    (∀ value mn : ℚ, wrap value mn mn = mn) := by
  constructor
  · intro value mn mx hv hr
    have hb : (0 : ℚ) < mx - mn := by linarith
    have ha : (0 : ℚ) ≤ value - mn := by linarith
    unfold wrap
    rw [if_neg hb.ne']
    constructor
    · have := jsRem_nonneg ha hb
      linarith
    · have := jsRem_lt ha hb
      linarith
  · intro value mn
    unfold wrap
    rw [if_pos (sub_self mn)]

/-- Witness for C7 (amended) at `value = 5/2`, range `[0, 1)`. -/
theorem c7_wrap_range_witness :
    (0 : ℚ) ≤ wrap (5 / 2) 0 1 ∧ wrap (5 / 2) 0 1 < 1 :=
  c7_wrap_range.1 (5 / 2) 0 1 (by norm_num) (by norm_num)

/-! ## C8: pointer-delta aspect correction (corrected)

The code scales the delta down on the axis of the *shorter* screen
dimension: on a landscape surface (`w > h`) `correctDeltaX` is the
identity and `correctDeltaY` divides by the aspect ratio. -/

/-- C8 counterexample: on a 200×100 canvas (longer dimension: x), the
x-delta is not scaled down and the y-delta is not left unchanged —
refuting the claim that the longer axis is scaled and the other axis is
untouched. -/
theorem c8_aspect_correction_counterexample :
    ¬ ∀ (w h : ℕ) (d : ℚ), 0 < h → h < w →
      (d ≠ 0 → |correctDeltaX w h d| < |d|) ∧ correctDeltaY w h d = d := by
  intro hclaim
  have h := hclaim 200 100 (1 / 10) (by norm_num) (by norm_num)
  have h1 : correctDeltaX 200 100 (1 / 10) = 1 / 10 := by
    norm_num [correctDeltaX]
  have h2 := h.1 (by norm_num)
  rw [h1] at h2
  exact absurd h2 (by norm_num)

/-- C8 amended: on every pointer move the normalized delta produced by
`updatePointerMoveData` passes through `correctDeltaX`/`correctDeltaY`,
and those scale the delta down on the axis corresponding to the
*shorter* screen dimension, leaving the longer axis's delta unchanged. -/
theorem c8_aspect_correction_shorter_axis (w h : ℕ) (d : ℚ) :
    (0 < h → h < w →
      correctDeltaX w h d = d ∧
      correctDeltaY w h d = d * ((h : ℚ) / w) ∧
      (d ≠ 0 → |correctDeltaY w h d| < |d|)) ∧
    (0 < w → w < h →
      correctDeltaY w h d = d ∧
      correctDeltaX w h d = d * ((w : ℚ) / h) ∧
      (d ≠ 0 → |correctDeltaX w h d| < |d|)) ∧
    (∀ (p : Pointer) (px py : ℚ),
      (updatePointerMoveData w h p px py).deltaX
          = correctDeltaX w h (px / (w : ℚ) - p.texcoordX) ∧
      (updatePointerMoveData w h p px py).deltaY
          = correctDeltaY w h ((1 - py / (h : ℚ)) - p.texcoordY)) := by
  refine ⟨fun hh hlt => ?_, fun hw hlt => ?_, fun p px py => ⟨rfl, rfl⟩⟩
  · have hhq : (0 : ℚ) < (h : ℚ) := by exact_mod_cast hh
    have hwq : (0 : ℚ) < (w : ℚ) := by exact_mod_cast hh.trans hlt
    have ha : (1 : ℚ) < (w : ℚ) / h := (one_lt_div hhq).mpr (by exact_mod_cast hlt)
    have hx : correctDeltaX w h d = d := by
      unfold correctDeltaX
      rw [if_neg (not_lt.mpr ha.le)]
    have hy : correctDeltaY w h d = d * ((h : ℚ) / w) := by
      unfold correctDeltaY
      rw [if_pos ha]
      field_simp
    refine ⟨hx, hy, fun hd => ?_⟩
    rw [hy, abs_mul]
    have habs : |(h : ℚ) / w| < 1 := by
      rw [abs_of_pos (div_pos hhq hwq), div_lt_one hwq]
      exact_mod_cast hlt
    calc |d| * |(h : ℚ) / w| < |d| * 1 :=
          mul_lt_mul_of_pos_left habs (abs_pos.mpr hd)
      _ = |d| := mul_one _
  · have hwq : (0 : ℚ) < (w : ℚ) := by exact_mod_cast hw
    have hhq : (0 : ℚ) < (h : ℚ) := by exact_mod_cast hw.trans hlt
    have ha : (w : ℚ) / h < 1 := (div_lt_one hhq).mpr (by exact_mod_cast hlt)
    have hy : correctDeltaY w h d = d := by
      unfold correctDeltaY
      rw [if_neg (not_lt.mpr ha.le)]
    have hx : correctDeltaX w h d = d * ((w : ℚ) / h) := by
      unfold correctDeltaX
      rw [if_pos ha]
    refine ⟨hy, hx, fun hd => ?_⟩
    rw [hx, abs_mul]
    have habs : |(w : ℚ) / h| < 1 := by
      rw [abs_of_pos (div_pos hwq hhq)]
      exact ha
    calc |d| * |(w : ℚ) / h| < |d| * 1 :=
          mul_lt_mul_of_pos_left habs (abs_pos.mpr hd)
      _ = |d| := mul_one _

/-- Witness for C8 (amended) on a 200×100 canvas with delta `1/10`. -/
theorem c8_aspect_correction_shorter_axis_witness :
    correctDeltaX 200 100 (1 / 10) = 1 / 10 ∧
    correctDeltaY 200 100 (1 / 10) = 1 / 10 * ((100 : ℚ) / 200) ∧
    (1 / 10 ≠ (0 : ℚ) → |correctDeltaY 200 100 (1 / 10)| < |(1 : ℚ) / 10|) :=
  (c8_aspect_correction_shorter_axis 200 100 (1 / 10)).1 (by decide) (by decide)

/-! ## C10: configuration defaulting -/

theorem jsOr_of_falsy {v : JSNum} (d : ℚ) (h : v.isFalsy = true) : jsOr v d = d := by
  cases v with
  | undef => rfl
  | nan => rfl
  | num q =>
    have hq : q = 0 := by simpa [JSNum.isFalsy] using h
    simp [jsOr, hq]

theorem jsOr_of_num {q : ℚ} (d : ℚ) (h : q ≠ 0) : jsOr (.num q) d = q := by
  simp [jsOr, h]

theorem jsOr_ne_zero {v : JSNum} {d : ℚ} (h : d ≠ 0) : jsOr v d ≠ 0 := by
  cases v with
  | undef => exact h
  | nan => exact h
  | num q =>
    by_cases hq : q = 0
    · simp only [jsOr, if_pos hq]
      exact h
    · simp only [jsOr, if_neg hq]
      exact hq

/-- C10: every numeric option whose supplied value is JS-falsy (`0`,
`NaN`, `undefined`) is silently replaced by its built-in default — in
particular `pressure`, `colorUpdateSpeed` and `pressureIterations` can
never resolve to `0` — while a non-zero supplied number is kept; the
boolean options `shading` and `transparent` are enabled for every
supplied value other than exactly `false`. -/
theorem c10_config_defaults (config : FluidConfig) :
    (config.simResolution.isFalsy = true →
      (resolveConfig config).SIM_RESOLUTION = 128) ∧
    (config.dyeResolution.isFalsy = true →
      (resolveConfig config).DYE_RESOLUTION = 1440) ∧
    (config.densityDissipation.isFalsy = true →
      (resolveConfig config).DENSITY_DISSIPATION = 35 / 10) ∧
    (config.velocityDissipation.isFalsy = true →
      (resolveConfig config).VELOCITY_DISSIPATION = 2) ∧
    (config.pressure.isFalsy = true →
      (resolveConfig config).PRESSURE = 1 / 10) ∧
    (config.pressureIterations.isFalsy = true →
      (resolveConfig config).PRESSURE_ITERATIONS = 20) ∧
    (config.curl.isFalsy = true →
      (resolveConfig config).CURL = 3) ∧
    (config.splatRadius.isFalsy = true →
      (resolveConfig config).SPLAT_RADIUS = 2 / 10) ∧
    (config.splatForce.isFalsy = true →
      (resolveConfig config).SPLAT_FORCE = 6000) ∧
    (config.colorUpdateSpeed.isFalsy = true →
      (resolveConfig config).COLOR_UPDATE_SPEED = 10) ∧
    (∀ q : ℚ, q ≠ 0 → config.pressure = .num q →
      (resolveConfig config).PRESSURE = q) ∧
    (resolveConfig config).PRESSURE ≠ 0 ∧
    (resolveConfig config).COLOR_UPDATE_SPEED ≠ 0 ∧
    (resolveConfig config).PRESSURE_ITERATIONS ≠ 0 ∧
    (config.shading ≠ some false → (resolveConfig config).SHADING = true) ∧
    (config.shading = some false → (resolveConfig config).SHADING = false) ∧
    (config.transparent ≠ some false → (resolveConfig config).TRANSPARENT = true) ∧
    (config.transparent = some false → (resolveConfig config).TRANSPARENT = false) := by
  refine ⟨fun h => jsOr_of_falsy _ h, fun h => jsOr_of_falsy _ h,
    fun h => jsOr_of_falsy _ h, fun h => jsOr_of_falsy _ h,
    fun h => jsOr_of_falsy _ h, fun h => jsOr_of_falsy _ h,
    fun h => jsOr_of_falsy _ h, fun h => jsOr_of_falsy _ h,
    fun h => jsOr_of_falsy _ h, fun h => jsOr_of_falsy _ h,
    fun q hq hp => ?_, jsOr_ne_zero (by norm_num), jsOr_ne_zero (by norm_num),
    jsOr_ne_zero (by norm_num), fun h => ?_, fun h => ?_, fun h => ?_, fun h => ?_⟩
  · show jsOr config.pressure (1 / 10) = q
    rw [hp]
    exact jsOr_of_num _ hq
  · simpa [resolveConfig] using h
  · simp [resolveConfig, h]
  · simpa [resolveConfig] using h
  · simp [resolveConfig, h]

/-- Witness for C10: `pressure: 0`, `colorUpdateSpeed: 0`,
`pressureIterations: 0` resolve to `0.1`, `10`, `20`. -/
theorem c10_config_defaults_witness :
    (resolveConfig zeroNumericConfig).PRESSURE = 1 / 10 ∧
    (resolveConfig zeroNumericConfig).COLOR_UPDATE_SPEED = 10 ∧
    (resolveConfig zeroNumericConfig).PRESSURE_ITERATIONS = 20 := by
  have h := c10_config_defaults zeroNumericConfig
  exact ⟨h.2.2.2.2.1 (by simp [zeroNumericConfig, JSNum.isFalsy]),
    h.2.2.2.2.2.2.2.2.2.1 (by simp [zeroNumericConfig, JSNum.isFalsy]),
    h.2.2.2.2.2.1 (by simp [zeroNumericConfig, JSNum.isFalsy])⟩

/-! ## C4: fail-soft on unsupported environments -/

/-- C4: if no usable rendering context exists, or any of the three
required float formats is entirely unavailable (in particular when no
probed format is renderable at all, so every fallback chain is
exhausted), `initFluidCursor` installs no listeners, starts no frame
loop, and hands the caller the inert `() => {}` teardown; the model is a
total function, so no exception reaches the caller. -/
theorem c4_init_fail_soft :
    (∀ ctx : Option GLExt,
      (ctx = none ∨ ∃ ext, ctx = some ext ∧
        (ext.formatRGBA = none ∨ ext.formatRG = none ∨ ext.formatR = none)) →
      initOutcome ctx = inertOutcome) ∧
    (∀ (isWebGL2 : Bool) (support : GLFormatCode → Bool) (sl : Bool) (ty : ℕ),
      (∀ fm, support fm = false) →
      initOutcome (some (negotiateFormats isWebGL2 support sl ty))
        = inertOutcome) := by
  have hpart1 : ∀ ctx : Option GLExt,
      (ctx = none ∨ ∃ ext, ctx = some ext ∧
        (ext.formatRGBA = none ∨ ext.formatRG = none ∨ ext.formatR = none)) →
      initOutcome ctx = inertOutcome := by
    intro ctx hctx
    rcases hctx with hnone | ⟨ext, hsome, hfmt⟩
    · rw [hnone]; rfl
    · rw [hsome]
      unfold initOutcome
      rcases hfmt with h | h | h <;> simp [h, inertOutcome]
  refine ⟨hpart1, fun isWebGL2 support sl ty hsup => ?_⟩
  refine hpart1 _ (Or.inr ⟨negotiateFormats isWebGL2 support sl ty, rfl, ?_⟩)
  cases isWebGL2 with
  | true =>
    refine Or.inr (Or.inr ?_)
    simp [negotiateFormats, getSupportedFormatR16F, getSupportedFormatRG16F,
      getSupportedFormatRGBA16F, hsup]
  | false =>
    refine Or.inl ?_
    simp [negotiateFormats, getSupportedFormatUnsized, hsup]

/-- Witness for C4: a missing context, and a WebGL2 context in which no
format probe succeeds, both yield the inert outcome. -/
theorem c4_init_fail_soft_witness :
    initOutcome none = inertOutcome ∧
    initOutcome (some (negotiateFormats true (fun _ => false) false 0))
      = inertOutcome :=
  ⟨c4_init_fail_soft.1 none (Or.inl rfl),
   c4_init_fail_soft.2 true (fun _ => false) false 0 (fun _ => rfl)⟩

/-! ## C2: double-buffer invariant and swap involution -/

/-- C2: a freshly created double buffer is well-formed (read and write
are distinct instances of identical dimensions and format); `swap` and
`resizeDoubleFBO` preserve well-formedness; `swap` merely exchanges the
two designations (taking no allocator and copying no content), and
applying it twice restores the original assignment. -/
theorem c2_doubleFBO_invariant (alloc w h internalFormat format texType : ℕ)
    (param : FilterMode) (d : DoubleFBO) :
    (createDoubleFBO alloc w h internalFormat format texType param).1.wellFormed ∧
    (d.wellFormed → d.swap.wellFormed) ∧
    (d.wellFormed → ∀ (a w2 h2 if2 f2 t2 : ℕ) (p2 : FilterMode),
      ((resizeDoubleFBO a d w2 h2 if2 f2 t2 p2).1).wellFormed) ∧
    d.swap.swap = d ∧
    d.swap.read = d.write ∧ d.swap.write = d.read := by
  refine ⟨?_, ?_, ?_, rfl, rfl, rfl⟩
  · refine ⟨?_, rfl, rfl, rfl, rfl, rfl, rfl⟩
    show alloc ≠ alloc + 1
    omega
  · intro hwf
    exact ⟨hwf.1.symm, hwf.2.1.symm, hwf.2.2.1.symm, hwf.2.2.2.1.symm,
      hwf.2.2.2.2.1.symm, hwf.2.2.2.2.2.1.symm, hwf.2.2.2.2.2.2.symm⟩
  · intro hwf a w2 h2 if2 f2 t2 p2
    unfold resizeDoubleFBO
    split
    · exact hwf
    · refine ⟨?_, rfl, rfl, rfl, rfl, rfl, rfl⟩
      show a ≠ a + 1
      omega

/-- Witness for C2 on a concrete 4×4 double buffer. -/
theorem c2_doubleFBO_invariant_witness :
    ((createDoubleFBO 0 4 4 5 6 7 FilterMode.linear).1).swap.wellFormed ∧
    ((createDoubleFBO 0 4 4 5 6 7 FilterMode.linear).1).swap.swap
      = (createDoubleFBO 0 4 4 5 6 7 FilterMode.linear).1 :=
  have h := c2_doubleFBO_invariant 0 4 4 5 6 7 FilterMode.linear
    (createDoubleFBO 0 4 4 5 6 7 FilterMode.linear).1
  ⟨h.2.1 (by decide), h.2.2.2.1⟩

/-! ## C3: content-preserving resize -/

/-- C3: resizing a double buffer to a genuinely new size allocates a new
read target of the new size whose content is the old read target rendered
through the copy program, allocates a fresh (cleared, uncopied) write
target of the new size, and touches no existing target: both returned
targets are new instances, distinct from the old read and write. -/
theorem c3_resizeDoubleFBO_spec (alloc : ℕ) (t : DoubleFBO)
    (w h internalFormat format texType : ℕ) (param : FilterMode)
    (hsize : ¬(t.width = w ∧ t.height = h))
    (hfresh : t.read.ident < alloc ∧ t.write.ident < alloc) :
    ((resizeDoubleFBO alloc t w h internalFormat format texType param).1).read.width = w ∧
    ((resizeDoubleFBO alloc t w h internalFormat format texType param).1).read.height = h ∧
    ((resizeDoubleFBO alloc t w h internalFormat format texType param).1).write.width = w ∧
    ((resizeDoubleFBO alloc t w h internalFormat format texType param).1).write.height = h ∧
    ((resizeDoubleFBO alloc t w h internalFormat format texType param).1).width = w ∧
    ((resizeDoubleFBO alloc t w h internalFormat format texType param).1).height = h ∧
    ((resizeDoubleFBO alloc t w h internalFormat format texType param).1).read.content
      = copyProgramRender t.read w h ∧
    ((resizeDoubleFBO alloc t w h internalFormat format texType param).1).write.content
      = (fun _ _ => clearColor) ∧
    ((resizeDoubleFBO alloc t w h internalFormat format texType param).1).read.ident
      ≠ t.read.ident ∧
    ((resizeDoubleFBO alloc t w h internalFormat format texType param).1).read.ident
      ≠ t.write.ident ∧
    ((resizeDoubleFBO alloc t w h internalFormat format texType param).1).write.ident
      ≠ t.read.ident ∧
    ((resizeDoubleFBO alloc t w h internalFormat format texType param).1).write.ident
      ≠ t.write.ident ∧
    ((resizeDoubleFBO alloc t w h internalFormat format texType param).1).read.ident
      ≠ ((resizeDoubleFBO alloc t w h internalFormat format texType param).1).write.ident := by
  unfold resizeDoubleFBO
  rw [if_neg hsize]
  refine ⟨rfl, rfl, rfl, rfl, rfl, rfl, rfl, rfl, ?_, ?_, ?_, ?_, ?_⟩ <;>
    show _ ≠ _ <;> simp only [resizeFBO, createFBO] <;> omega

/-- Witness for C3: resize a 2×2 double buffer to 3×2. -/
theorem c3_resizeDoubleFBO_spec_witness :
    ((resizeDoubleFBO 2 (createDoubleFBO 0 2 2 5 6 7 FilterMode.nearest).1
      3 2 5 6 7 FilterMode.nearest).1).read.width = 3 :=
  (c3_resizeDoubleFBO_spec 2 (createDoubleFBO 0 2 2 5 6 7 FilterMode.nearest).1
    3 2 5 6 7 FilterMode.nearest (by decide) (by decide)).1

/-! ## C9: Jacobi iteration count vs. residual divergence

The post-projection divergence residual is *not* monotone in the
iteration count: the divergence and gradient-subtraction shaders compose
to a distance-2 five-point operator, while the Jacobi sweep targets the
distance-1 operator, so the residual has a nonzero limit that iterates
can overshoot.  The quantity that *is* monotone (in L2) is the residual
of the discrete pressure equation the Jacobi solve itself targets,
because one sweep maps that residual through the clamped neighbor
average, an L2-contraction. -/

section GridLemmas

variable {K : Type} [LinearOrderedField K]

omit [LinearOrderedField K] in
theorem fieldEqOn_refl (W H : ℕ) (f : ℕ → ℕ → K) : FieldEqOn W H f f :=
  fun _ _ _ _ => rfl

omit [LinearOrderedField K] in
theorem fieldEqOn_trans {W H : ℕ} {f g h : ℕ → ℕ → K}
    (h1 : FieldEqOn W H f g) (h2 : FieldEqOn W H g h) : FieldEqOn W H f h :=
  fun i hi j hj => (h1 i hi j hj).trans (h2 i hi j hj)

theorem divergenceField_congr {W H : ℕ} {vx vx' vy vy' : ℕ → ℕ → K}
    (hx : FieldEqOn W H vx vx') (hy : FieldEqOn W H vy vy') :
    FieldEqOn W H (divergenceField W H vx vy) (divergenceField W H vx' vy') := by
  intro i hi j hj
  have hiW : i - 1 < W := by omega
  have hjH : j - 1 < H := by omega
  have hiW2 : min (i + 1) (W - 1) < W := by omega
  have hjH2 : min (j + 1) (H - 1) < H := by omega
  simp only [divergenceField]
  rw [hx _ hiW _ hj, hx _ hiW2 _ hj, hy _ hi _ hjH, hy _ hi _ hjH2,
    hx _ hi _ hj, hy _ hi _ hj]

theorem jacobiIter_congr {W H : ℕ} {d d' p p' : ℕ → ℕ → K}
    (hd : FieldEqOn W H d d') (hp : FieldEqOn W H p p') :
    FieldEqOn W H (jacobiIter W H d p) (jacobiIter W H d' p') := by
  intro i hi j hj
  have hiW : i - 1 < W := by omega
  have hjH : j - 1 < H := by omega
  have hiW2 : min (i + 1) (W - 1) < W := by omega
  have hjH2 : min (j + 1) (H - 1) < H := by omega
  simp only [jacobiIter]
  rw [hp _ hiW _ hj, hp _ hiW2 _ hj, hp _ hi _ hjH, hp _ hi _ hjH2,
    hd _ hi _ hj]

theorem gradientSubtract_congr {W H : ℕ} {p p' vx vx' vy vy' : ℕ → ℕ → K}
    (hp : FieldEqOn W H p p') (hx : FieldEqOn W H vx vx') (hy : FieldEqOn W H vy vy') :
    FieldEqOn W H (gradientSubtract W H p vx vy).1 (gradientSubtract W H p' vx' vy').1 ∧
    FieldEqOn W H (gradientSubtract W H p vx vy).2 (gradientSubtract W H p' vx' vy').2 := by
  constructor <;> intro i hi j hj
  · have hiW : i - 1 < W := by omega
    have hiW2 : min (i + 1) (W - 1) < W := by omega
    simp only [gradientSubtract]
    rw [hp _ hiW _ hj, hp _ hiW2 _ hj, hx _ hi _ hj]
  · have hjH : j - 1 < H := by omega
    have hjH2 : min (j + 1) (H - 1) < H := by omega
    simp only [gradientSubtract]
    rw [hp _ hi _ hjH, hp _ hi _ hjH2, hy _ hi _ hj]

theorem normSq_congr {W H : ℕ} {f g : ℕ → ℕ → K} (h : FieldEqOn W H f g) :
    normSq W H f = normSq W H g := by
  unfold normSq
  refine Finset.sum_congr rfl fun i hi => Finset.sum_congr rfl fun j hj => ?_
  rw [h i (Finset.mem_range.mp hi) j (Finset.mem_range.mp hj)]

/-- One Jacobi sweep maps the pressure-equation residual through the
quarter-scaled clamped neighbor sum. -/
theorem pressureResidual_jacobi (W H : ℕ) (d p : ℕ → ℕ → K) :
    pressureResidual W H d (jacobiIter W H d p)
      = fun i j => neighborSum W H (pressureResidual W H d p) i j * (1 / 4) := by
  funext i j
  simp only [pressureResidual, neighborSum, jacobiIter]
  ring

/-- Reindexing identity: summing a sequence over the down-clamped and
up-clamped shifts together double-counts nothing and misses nothing. -/
theorem shift_sum_1d (m : ℕ) (g : ℕ → K) :
    (∑ i ∈ Finset.range (m + 1), g (i - 1))
      + ∑ i ∈ Finset.range (m + 1), g (min (i + 1) m)
      = 2 * ∑ i ∈ Finset.range (m + 1), g i := by
  have h1 : (∑ i ∈ Finset.range (m + 1), g (i - 1))
      = (∑ i ∈ Finset.range m, g i) + g 0 := by
    rw [Finset.sum_range_succ']
    simp
  have h2 : (∑ i ∈ Finset.range (m + 1), g (min (i + 1) m))
      = ((∑ i ∈ Finset.range (m + 1), g i) - g 0) + g m := by
    rw [Finset.sum_range_succ]
    have h3 : (∑ i ∈ Finset.range m, g (min (i + 1) m))
        = ∑ i ∈ Finset.range m, g (i + 1) := by
      refine Finset.sum_congr rfl fun i hi => ?_
      have := Finset.mem_range.mp hi
      congr 1
      omega
    have h4 : min (m + 1) m = m := by omega
    rw [h3, h4, Finset.sum_range_succ' g m]
    ring
  rw [h1, h2, Finset.sum_range_succ g m]
  ring

/-- The quarter-scaled clamped neighbor sum is an L2-contraction on the
grid. -/
theorem normSq_neighborSum_quarter_le (W H : ℕ) (f : ℕ → ℕ → K) :
    normSq W H (fun i j => neighborSum W H f i j * (1 / 4)) ≤ normSq W H f := by
  rcases W with _ | w
  · simp [normSq]
  rcases H with _ | h
  · simp [normSq]
  have hW1 : w + 1 - 1 = w := by omega
  have hH1 : h + 1 - 1 = h := by omega
  have hpt : ∀ i j, (neighborSum (w + 1) (h + 1) f i j * (1 / 4)) ^ 2
      ≤ (f (i - 1) j ^ 2 + f (min (i + 1) w) j ^ 2
        + f i (j - 1) ^ 2 + f i (min (j + 1) h) ^ 2) / 4 := by
    intro i j
    simp only [neighborSum, hW1, hH1]
    nlinarith [sq_nonneg (f (i - 1) j - f (min (i + 1) w) j),
      sq_nonneg (f (i - 1) j - f i (j - 1)),
      sq_nonneg (f (i - 1) j - f i (min (j + 1) h)),
      sq_nonneg (f (min (i + 1) w) j - f i (j - 1)),
      sq_nonneg (f (min (i + 1) w) j - f i (min (j + 1) h)),
      sq_nonneg (f i (j - 1) - f i (min (j + 1) h))]
  have hsum : normSq (w + 1) (h + 1) (fun i j => neighborSum (w + 1) (h + 1) f i j * (1 / 4))
      ≤ ∑ i ∈ Finset.range (w + 1), ∑ j ∈ Finset.range (h + 1),
          (f (i - 1) j ^ 2 + f (min (i + 1) w) j ^ 2
            + f i (j - 1) ^ 2 + f i (min (j + 1) h) ^ 2) / 4 := by
    unfold normSq
    refine Finset.sum_le_sum fun i _ => Finset.sum_le_sum fun j _ => hpt i j
  refine hsum.trans ?_
  have hx : ∀ j, (∑ i ∈ Finset.range (w + 1), (f (i - 1) j ^ 2 + f (min (i + 1) w) j ^ 2))
      = 2 * ∑ i ∈ Finset.range (w + 1), f i j ^ 2 := by
    intro j
    rw [Finset.sum_add_distrib]
    exact shift_sum_1d w (fun i => f i j ^ 2)
  have hy : ∀ i, (∑ j ∈ Finset.range (h + 1), (f i (j - 1) ^ 2 + f i (min (j + 1) h) ^ 2))
      = 2 * ∑ j ∈ Finset.range (h + 1), f i j ^ 2 := by
    intro i
    rw [Finset.sum_add_distrib]
    exact shift_sum_1d h (fun j => f i j ^ 2)
  have hA : (∑ i ∈ Finset.range (w + 1), ∑ j ∈ Finset.range (h + 1),
      (f (i - 1) j ^ 2 + f (min (i + 1) w) j ^ 2))
      = 2 * normSq (w + 1) (h + 1) f := by
    rw [Finset.sum_comm]
    unfold normSq
    rw [Finset.sum_comm (f := fun i j => f i j ^ 2), Finset.mul_sum]
    exact Finset.sum_congr rfl fun j _ => hx j
  have hB : (∑ i ∈ Finset.range (w + 1), ∑ j ∈ Finset.range (h + 1),
      (f i (j - 1) ^ 2 + f i (min (j + 1) h) ^ 2))
      = 2 * normSq (w + 1) (h + 1) f := by
    unfold normSq
    rw [Finset.mul_sum]
    exact Finset.sum_congr rfl fun i _ => hy i
  have hsplit : ∀ i j, (f (i - 1) j ^ 2 + f (min (i + 1) w) j ^ 2
      + f i (j - 1) ^ 2 + f i (min (j + 1) h) ^ 2) / 4
      = ((f (i - 1) j ^ 2 + f (min (i + 1) w) j ^ 2)
        + (f i (j - 1) ^ 2 + f i (min (j + 1) h) ^ 2)) * (1 / 4) := by
    intro i j; ring
  simp only [hsplit, ← Finset.sum_mul, Finset.sum_add_distrib]
  simp only [Finset.sum_add_distrib] at hA hB
  linarith

end GridLemmas

/-! ### The staged counterexample computation -/

theorem dEx_eq : FieldEqOn 3 3 (divergenceField 3 3 vxEx vyEx) dEx := by
  intro i hi j hj
  interval_cases i <;> interval_cases j <;>
    norm_num [divergenceField, vxEx, vyEx, dEx]

theorem p1Ex_eq : FieldEqOn 3 3 (jacobiIter 3 3 dEx p0Ex) p1Ex := by
  intro i hi j hj
  interval_cases i <;> interval_cases j <;>
    norm_num [jacobiIter, dEx, p0Ex, p1Ex]

theorem p2Ex_eq : FieldEqOn 3 3 (jacobiIter 3 3 dEx p1Ex) p2Ex := by
  intro i hi j hj
  interval_cases i <;> interval_cases j <;>
    norm_num [jacobiIter, dEx, p1Ex, p2Ex]

theorem iterate1_eq :
    FieldEqOn 3 3 ((jacobiIter 3 3 (divergenceField 3 3 vxEx vyEx))^[1] p0Ex) p1Ex := by
  have h1 : FieldEqOn 3 3 (jacobiIter 3 3 (divergenceField 3 3 vxEx vyEx) p0Ex)
      (jacobiIter 3 3 dEx p0Ex) := jacobiIter_congr dEx_eq (fieldEqOn_refl 3 3 p0Ex)
  simpa using fieldEqOn_trans h1 p1Ex_eq

theorem iterate2_eq :
    FieldEqOn 3 3 ((jacobiIter 3 3 (divergenceField 3 3 vxEx vyEx))^[2] p0Ex) p2Ex := by
  have h1 : FieldEqOn 3 3 (jacobiIter 3 3 (divergenceField 3 3 vxEx vyEx)
      ((jacobiIter 3 3 (divergenceField 3 3 vxEx vyEx))^[1] p0Ex))
      (jacobiIter 3 3 dEx p1Ex) := jacobiIter_congr dEx_eq iterate1_eq
  have h2 := fieldEqOn_trans h1 p2Ex_eq
  have h3 : (jacobiIter 3 3 (divergenceField 3 3 vxEx vyEx))^[2] p0Ex
      = jacobiIter 3 3 (divergenceField 3 3 vxEx vyEx)
        ((jacobiIter 3 3 (divergenceField 3 3 vxEx vyEx))^[1] p0Ex) :=
    Function.iterate_succ_apply' _ 1 _
  rw [h3]
  exact h2

theorem projectedResidual_staged (pEx : ℕ → ℕ → ℚ) (k : ℕ)
    (hpk : FieldEqOn 3 3 ((jacobiIter 3 3 (divergenceField 3 3 vxEx vyEx))^[k] p0Ex) pEx) :
    projectedResidualNormSq 3 3 vxEx vyEx p0Ex k =
      normSq 3 3 (divergenceField 3 3 (gradientSubtract 3 3 pEx vxEx vyEx).1
        (gradientSubtract 3 3 pEx vxEx vyEx).2) := by
  unfold projectedResidualNormSq
  have hg := gradientSubtract_congr hpk (fieldEqOn_refl 3 3 vxEx) (fieldEqOn_refl 3 3 vyEx)
  exact normSq_congr (divergenceField_congr hg.1 hg.2)

set_option maxHeartbeats 1000000 in
theorem projectedResidual_one :
    projectedResidualNormSq 3 3 vxEx vyEx p0Ex 1 = 261 / 128 := by
  rw [projectedResidual_staged p1Ex 1 iterate1_eq]
  norm_num [normSq, divergenceField, gradientSubtract, vxEx, vyEx, p1Ex,
    Finset.sum_range_succ]

set_option maxHeartbeats 1000000 in
theorem projectedResidual_two :
    projectedResidualNormSq 3 3 vxEx vyEx p0Ex 2 = 10329 / 2048 := by
  rw [projectedResidual_staged p2Ex 2 iterate2_eq]
  norm_num [normSq, divergenceField, gradientSubtract, vxEx, vyEx, p2Ex,
    Finset.sum_range_succ]

/-- C9 counterexample: the post-projection residual divergence norm is
not monotone in the Jacobi iteration count — on the concrete 3×3 input
(`vxEx`, `vyEx`, `p0Ex`), two iterations leave squared residual
`10329/2048`, strictly more than the `261/128` left by one iteration. -/
theorem c9_projected_residual_not_monotone :
    ¬ ∀ (W H : ℕ) (vx vy p0 : ℕ → ℕ → ℚ) (k : ℕ),
      projectedResidualNormSq W H vx vy p0 (k + 1)
        ≤ projectedResidualNormSq W H vx vy p0 k := by
  intro hclaim
  have h : projectedResidualNormSq 3 3 vxEx vyEx p0Ex 2
      ≤ projectedResidualNormSq 3 3 vxEx vyEx p0Ex 1 := hclaim 3 3 vxEx vyEx p0Ex 1
  rw [projectedResidual_one, projectedResidual_two] at h
  norm_num at h

/-- C9 amended: the quantity the Jacobi solve drives down monotonically
is the residual of its own pressure equation: for every grid, divergence
input and initial pressure, one further Jacobi iteration never increases
the squared L2 norm of `neighborSum p - 4p - d`. -/
theorem c9_pressure_residual_monotone (W H : ℕ) (d p0 : ℕ → ℕ → ℚ) (k : ℕ) :
    normSq W H (pressureResidual W H d ((jacobiIter W H d)^[k + 1] p0))
      ≤ normSq W H (pressureResidual W H d ((jacobiIter W H d)^[k] p0)) := by
  rw [Function.iterate_succ_apply' (jacobiIter W H d) k p0, pressureResidual_jacobi]
  exact normSq_neighborSum_quarter_le W H _

/-! ## C1: the fixed pass order of `step` -/

theorem jacobiLoop_trace (cfg : SimConfig) (n : ℕ) (s : SimState) :
    ((jacobiLoopBody cfg)^[n] s).trace
      = s.trace
        ++ (List.replicate n [StepEvent.pressurePass, StepEvent.swapPressure]).flatten := by
  induction n with
  | zero => simp
  | succ n ih =>
    rw [Function.iterate_succ_apply']
    simp only [jacobiLoopBody, ih, List.replicate_succ']
    simp [List.append_assoc]

/-- C1: for every configuration, time delta and state, one `step`
appends to the trace exactly the pass/swap sequence of the
specification: curl; vorticity then velocity swap; divergence; pressure
clear then pressure swap; the configured number of Jacobi iterations,
each followed by a pressure swap; gradient subtraction then velocity
swap; velocity self-advection then velocity swap; dye advection then dye
swap — nothing omitted, duplicated or reordered. -/
theorem c1_step_pass_order (cfg : SimConfig) (dt : ℝ) (s : SimState) :
    (step cfg dt s).trace = s.trace ++ specPassOrder cfg.pressureIterations := by
  unfold step specPassOrder
  simp only [jacobiLoop_trace]
  simp [List.append_assoc]

end FluidCursor
